import Mathlib

/-!
Shallow embedding of the two clients of this repository:
the resilient ZhiPu completion client
(crates/ai_getway/src/models/zhi_pu.rs) and the Anki-Connect
RPC client (crates/anki_connect/src/anki/client.rs).

Rust strings that are inspected at byte granularity are modelled as
their UTF-8 byte sequences (`Bytes`); external library behaviour
(serde_json parsing, the typed body parse done by reqwest's json)
is kept abstract as a parameter, and the network is modelled as a
function from the attempt index to that attempt's outcome.
-/

namespace ZhiPu

/-- UTF-8 byte sequence standing for a Rust String or str slice. -/
abbrev Bytes := List Nat

/-- ZhiPuUsage: token usage counters of a completion response. -/
structure ZhiPuUsage where
  prompt_tokens : Int
  completion_tokens : Int
  total_tokens : Int
deriving DecidableEq

/-- ZhiPuResponseMessage: role, content and optional reasoning text. -/
structure ZhiPuResponseMessage where
  role : String
  content : String
  reasoning_content : Option String
deriving DecidableEq

/-- ZhiPuChoice: one choice of a completion response. -/
structure ZhiPuChoice where
  index : Int
  message : ZhiPuResponseMessage
  finish_reason : String
deriving DecidableEq

/-- ZhiPuResponse: the typed body of a successful completion call. -/
structure ZhiPuResponse where
  id : String
  request_id : String
  created : Int
  model : String
  choices : List ZhiPuChoice
  usage : ZhiPuUsage
deriving DecidableEq

/-- Rust str.is_char_boundary on the UTF-8 byte sequence: index 0 and
the length are boundaries, an index past the end is not, and an interior
index is a boundary exactly when the byte there is not a UTF-8
continuation byte (i.e. not in 128..191). -/
def is_char_boundary (s : Bytes) (i : Nat) : Bool :=
  if i = 0 ∨ i = s.length then
    true
  else
    match s.get? i with
    | some b => decide (b < 128) || decide (192 ≤ b)
    | none => false

/-- The two shapes of message built by format_error_response: either the
body parsed as structured JSON and the message embeds that JSON value, or
the message embeds the status and the (possibly truncated) raw body.  The
Rust format strings are injective in their holes, so the message is
modelled by its variable parts. -/
inductive ErrorMsg (α : Type) where
  | jsonError (json : α)
  | textError (status : Nat) (body : Bytes)
deriving DecidableEq

/-- UTF-8 bytes of the "..." ellipsis marker appended after truncation. -/
def ellipsis : Bytes := [46, 46, 46]

/-- format_error_response from zhi_pu.rs.  `jparse` stands for
serde_json::from_str on the body (external library, abstract).  When the
body does not parse as JSON and its byte length exceeds 200, the code
slices the first 200 bytes; in Rust that slice panics when byte offset
200 is not a character boundary, which is modelled as `none`. -/
def format_error_response (jparse : Bytes → Option α) (status : Nat)
    (error_text : Bytes) : Option (ErrorMsg α) :=
  match jparse error_text with
  | some j => some (ErrorMsg.jsonError j)
  | none =>
    if 200 < error_text.length then
      if is_char_boundary error_text 200 then
        some (ErrorMsg.textError status (error_text.take 200 ++ ellipsis))
      else
        none
    else
      some (ErrorMsg.textError status error_text)

/-- is_retryable_error from zhi_pu.rs: the retryable HTTP status codes. -/
def is_retryable_error (status_code : Nat) : Bool :=
  status_code == 500 || status_code == 502 || status_code == 503 ||
    status_code == 504

/-- The sleep duration, in seconds, of wait_before_retry for the given
1-indexed retry number: 2 ^ (retry_count - 1). -/
def wait_sleep_secs (retry_count : Nat) : Nat :=
  2 ^ (retry_count - 1)

/-- Outcome of one execute_zhi_pu_request call: either a transport-level
failure, or an HTTP response carrying its status code, the typed parse of
its body as ZhiPuResponse (consulted only for 2xx statuses), and the raw
body bytes (consulted only for fatal non-2xx statuses). -/
inductive AttemptOutcome (α : Type) where
  | netErr
  | resp (status : Nat) (parsed : Option ZhiPuResponse) (body : Bytes)

/-- Result of handle_http_response: Ok(Some r), Ok(None) meaning retry,
the Err propagated by the typed body parse on 2xx, the Err built from
format_error_response, or the panic inside format_error_response. -/
inductive HandleOut (α : Type) where
  | success (r : ZhiPuResponse)
  | retry
  | decodeErr
  | apiErr (m : ErrorMsg α)
  | panicked
deriving DecidableEq

/-- MAX_RETRIES constant of zhi_pu_completion. -/
def MAX_RETRIES : Nat := 3

/-- handle_http_response from zhi_pu.rs: 2xx parses the typed body (a
parse failure is an immediate error), a retryable status with retry
budget left yields Ok(None), anything else formats the error body and
fails. reqwest's status.is_success is 200..=299. -/
def handle_http_response (jparse : Bytes → Option α) (status : Nat)
    (parsed : Option ZhiPuResponse) (body : Bytes)
    (retry_count max_retries : Nat) : HandleOut α :=
  if 200 ≤ status ∧ status ≤ 299 then
    match parsed with
    | some r => HandleOut.success r
    | none => HandleOut.decodeErr
  else if is_retryable_error status && decide (retry_count < max_retries) then
    HandleOut.retry
  else
    match format_error_response jparse status body with
    | some m => HandleOut.apiErr m
    | none => HandleOut.panicked

/-- Terminal outcome of a zhi_pu_completion run. -/
inductive RunOutcome (α : Type) where
  | success (r : ZhiPuResponse)
  | netFail
  | decodeFail
  | apiFail (m : ErrorMsg α)
  | panicked
  | fuelOut
deriving DecidableEq

/-- Observable trace of one zhi_pu_completion call: how many HTTP
requests were issued, the successive sleep durations in seconds, and the
terminal outcome. -/
structure RunResult (α : Type) where
  attempts : Nat
  sleeps : List Nat
  outcome : RunOutcome α
deriving DecidableEq

/-- The retry loop of zhi_pu_completion.  `attempt` counts the requests
already issued (the current request is `server attempt`); `retry_count`
and the sleep bookkeeping follow the source: on a retryable failure with
budget left, retry_count is incremented and wait_before_retry sleeps
2 ^ (new retry_count - 1) seconds.  The loop body runs at most
MAX_RETRIES + 1 times, so the fuel never runs out from the entry point. -/
def zhi_pu_loop (jparse : Bytes → Option α) (server : Nat → AttemptOutcome α) :
    Nat → Nat → Nat → List Nat → RunResult α
  | 0, attempt, _, sleeps => ⟨attempt, sleeps, RunOutcome.fuelOut⟩
  | fuel + 1, attempt, retry_count, sleeps =>
    match server attempt with
    | AttemptOutcome.netErr =>
      if retry_count < MAX_RETRIES then
        zhi_pu_loop jparse server fuel (attempt + 1) (retry_count + 1)
          (sleeps ++ [wait_sleep_secs (retry_count + 1)])
      else
        ⟨attempt + 1, sleeps, RunOutcome.netFail⟩
    | AttemptOutcome.resp status parsed body =>
      match handle_http_response jparse status parsed body retry_count MAX_RETRIES with
      | HandleOut.success r => ⟨attempt + 1, sleeps, RunOutcome.success r⟩
      | HandleOut.retry =>
        zhi_pu_loop jparse server fuel (attempt + 1) (retry_count + 1)
          (sleeps ++ [wait_sleep_secs (retry_count + 1)])
      | HandleOut.decodeErr => ⟨attempt + 1, sleeps, RunOutcome.decodeFail⟩
      | HandleOut.apiErr m => ⟨attempt + 1, sleeps, RunOutcome.apiFail m⟩
      | HandleOut.panicked => ⟨attempt + 1, sleeps, RunOutcome.panicked⟩

/-- zhi_pu_completion from zhi_pu.rs, as the observable trace of its
retry loop: starts with retry_count = 0 and no sleeps performed. -/
def zhi_pu_completion (jparse : Bytes → Option α)
    (server : Nat → AttemptOutcome α) : RunResult α :=
  zhi_pu_loop jparse server (MAX_RETRIES + 1) 0 0 []

/-- Number of characters of a UTF-8 byte sequence: the count of bytes
that start a character, i.e. are not continuation bytes. -/
def utf8CharCount (s : Bytes) : Nat :=
  (s.filter fun b => decide (b < 128) || decide (192 ≤ b)).length

/-- A 202-byte, 101-character body: 101 copies of the two-byte UTF-8
encoding of U+00E9. -/
def twoByteRunBody : Bytes :=
  (List.replicate 101 [195, 169]).flatten

/-- A 201-byte body whose byte offset 200 falls inside a character: 199
ASCII bytes followed by the two-byte UTF-8 encoding of U+00E9. -/
def splitCharBody : Bytes :=
  List.replicate 199 97 ++ [195, 169]

end ZhiPu

namespace AnkiConnect

/-- JSON values, as produced by serde serialization of the envelope;
objects keep their fields in order. -/
inductive Json where
  | null
  | bool (b : Bool)
  | num (n : Int)
  | str (s : String)
  | arr (xs : List Json)
  | obj (fields : List (String × Json))

/-- The keys of a top-level JSON object, in order. -/
def jsonKeys : Json → List String
  | Json.obj kvs => kvs.map Prod.fst
  | _ => []

/-- AnkiRequest from client.rs: action, fixed version, optional typed
params (skipped entirely on serialization when absent). -/
structure AnkiRequest (T : Type) where
  action : String
  version : Nat
  params : Option T
deriving DecidableEq

/-- AnkiRequest::new from client.rs. -/
def AnkiRequest.new (action : String) (version : Nat) (params : Option T) :
    AnkiRequest T :=
  ⟨action, version, params⟩

/-- serde serialization of AnkiRequest: camelCase field names are
"action", "version", "params"; the params field carries
skip_serializing_if Option::is_none, so a None params contributes no key
at all.  `serP` is the serializer of the params type. -/
def serializeAnkiRequest (serP : T → Json) (r : AnkiRequest T) : Json :=
  Json.obj
    ([("action", Json.str r.action), ("version", Json.num r.version)] ++
      match r.params with
      | none => []
      | some p => [("params", serP p)])

/-- Modelled from the spec: AnkiRequest has no deserializer in the
source (the envelope is only ever sent), but the spec's round-trip
property needs one; this reads back the wire form the serializer emits —
an object with an "action" string, a "version" number, and an optional
"params" payload decoded by `deP`. -/
def parseAnkiRequest (deP : Json → Option T) : Json → Option (AnkiRequest T)
  | Json.obj kvs =>
    match kvs.lookup "action", kvs.lookup "version" with
    | some (Json.str a), some (Json.num v) =>
      match kvs.lookup "params" with
      | none => some ⟨a, v.toNat, none⟩
      | some pj =>
        match deP pj with
        | some p => some ⟨a, v.toNat, some p⟩
        | none => none
    | _, _ => none
  | _ => none

/-- GetDeckNamesParams from client.rs: an optional cards flag, skipped
when absent. -/
structure GetDeckNamesParams where
  cards : Option Bool
deriving DecidableEq

/-- serde serialization of GetDeckNamesParams: the cards field carries
skip_serializing_if Option::is_none. -/
def serGetDeckNamesParams (p : GetDeckNamesParams) : Json :=
  Json.obj
    (match p.cards with
    | none => []
    | some b => [("cards", Json.bool b)])

/-- The params value get_deck_names passes to invoke: Some wrapper when
a cards flag was supplied, None otherwise. -/
def get_deck_names_params (cards : Option Bool) : Option GetDeckNamesParams :=
  if cards.isSome then some ⟨cards⟩ else none

/-- AnkiResponse from client.rs: the untagged success/error envelope. -/
inductive AnkiResponse (R : Type) where
  | success (result : R)
  | error (error : String) (detail : Option String)
deriving DecidableEq

/-- serde deserialization of an Option String field value: null gives
None, a string gives Some, anything else fails. -/
def parseStringOpt : Json → Option (Option String)
  | Json.null => some none
  | Json.str s => some (some s)
  | _ => none

/-- The Success variant of the untagged AnkiResponse: needs a "result"
key whose value deserializes as R (extra keys are ignored, serde's
default for structs). -/
def parseSuccess (deR : Json → Option R) (kvs : List (String × Json)) :
    Option (AnkiResponse R) :=
  match kvs.lookup "result" with
  | some v => (deR v).map AnkiResponse.success
  | none => none

/-- The Error variant of the untagged AnkiResponse: needs an "error"
string key; "detail" carries serde(default), so it may be absent. -/
def parseError (kvs : List (String × Json)) : Option (AnkiResponse R) :=
  match kvs.lookup "error" with
  | some (Json.str e) =>
    match kvs.lookup "detail" with
    | none => some (AnkiResponse.error e none)
    | some dv => (parseStringOpt dv).map (AnkiResponse.error e)
  | _ => none

/-- serde untagged deserialization of AnkiResponse: the variants are
tried in declaration order, Success first, Error only if Success does
not match. -/
def parseAnkiResponse (deR : Json → Option R) : Json → Option (AnkiResponse R)
  | Json.obj kvs => (parseSuccess deR kvs).orElse fun _ => parseError kvs
  | _ => none

/-- The tail of invoke from client.rs: a success envelope yields the
typed result, an error envelope yields the anyhow error whose message is
"Anki-Connect error: " followed by "error: detail" when detail is
present, else just the error string. -/
def invoke_unwrap (resp : AnkiResponse R) : Except String R :=
  match resp with
  | AnkiResponse.success r => Except.ok r
  | AnkiResponse.error e d =>
    Except.error
      ("Anki-Connect error: " ++
        match d with
        | some dd => e ++ ": " ++ dd
        | none => e)

/-- update_note_fields from client.rs, as a function of what the RPC
layer (invoke with a Bool result) returned: an invoke error propagates,
Ok(true) is success, and Ok(false) becomes a caller-visible error. -/
def update_note_fields (rpc : Except String Bool) : Except String Unit :=
  match rpc with
  | Except.error e => Except.error e
  | Except.ok result =>
    if result then Except.ok ()
    else Except.error "Failed to update note fields"

/-- Deserializer for an integer RPC result, e.g. the note id returned by
updateNoteFields-like actions. -/
def parseIntResult : Json → Option Int
  | Json.num n => some n
  | _ => none

end AnkiConnect

namespace ZhiPu

/-- A retryable status code is one of 500, 502, 503, 504. -/
lemma is_retryable_error_iff (s : Nat) :
    is_retryable_error s = true ↔ s = 500 ∨ s = 502 ∨ s = 503 ∨ s = 504 := by
  simp [is_retryable_error, Nat.beq_eq_true_eq]
  tauto

/-- A retryable status code is not a success status. -/
lemma retryable_not_success {s : Nat} (h : is_retryable_error s = true) :
    ¬ (200 ≤ s ∧ s ≤ 299) := by
  rcases (is_retryable_error_iff s).mp h with h | h | h | h <;> omega

/-- handle_http_response asks for a retry on a retryable status with
retry budget left. -/
lemma handle_retryable {α : Type} (jparse : Bytes → Option α) {s : Nat}
    (p : Option ZhiPuResponse) (b : Bytes) {rc mr : Nat}
    (hs : is_retryable_error s = true) (hrc : rc < mr) :
    handle_http_response jparse s p b rc mr = HandleOut.retry := by
  unfold handle_http_response
  rw [if_neg (retryable_not_success hs)]
  rw [if_pos (by simp [hs, hrc])]

/-- handle_http_response fails with the formatted error body on a
non-2xx status when no retry is possible (fatal status, or budget
exhausted). -/
lemma handle_fatal_format {α : Type} {jparse : Bytes → Option α} {s : Nat}
    (p : Option ZhiPuResponse) {b : Bytes} {rc mr : Nat} {m : ErrorMsg α}
    (hs : ¬ (200 ≤ s ∧ s ≤ 299))
    (hcond : (is_retryable_error s && decide (rc < mr)) = false)
    (hf : format_error_response jparse s b = some m) :
    handle_http_response jparse s p b rc mr = HandleOut.apiErr m := by
  unfold handle_http_response
  rw [if_neg hs, if_neg (by simp [hcond]), hf]

/-- handle_http_response reports a decode failure on a 2xx status whose
body does not parse as the typed response. -/
lemma handle_decode_err {α : Type} (jparse : Bytes → Option α) {s : Nat}
    (b : Bytes) (rc mr : Nat) (hs : 200 ≤ s ∧ s ≤ 299) :
    handle_http_response jparse s none b rc mr = HandleOut.decodeErr := by
  unfold handle_http_response
  rw [if_pos hs]

/-- handle_http_response only asks for a retry while the retry budget is
not exhausted. -/
lemma handle_retry_lt {α : Type} {jparse : Bytes → Option α} {s : Nat}
    {p : Option ZhiPuResponse} {b : Bytes} {rc mr : Nat}
    (h : handle_http_response jparse s p b rc mr = HandleOut.retry) :
    rc < mr := by
  unfold handle_http_response at h
  split at h
  · split at h <;> simp_all
  · split at h
    · rename_i hcond
      exact (by simpa using hcond : _ ∧ rc < mr).2
    · split at h <;> simp_all

/-- One loop iteration on a network error with retry budget left sleeps
and retries. -/
lemma loop_step_net {α : Type} {jparse : Bytes → Option α}
    {server : Nat → AttemptOutcome α} {a : Nat} {f rc : Nat} {sl : List Nat}
    (h : server a = AttemptOutcome.netErr) (hrc : rc < MAX_RETRIES) :
    zhi_pu_loop jparse server (f + 1) a rc sl =
      zhi_pu_loop jparse server f (a + 1) (rc + 1)
        (sl ++ [wait_sleep_secs (rc + 1)]) := by
  simp [zhi_pu_loop, h, hrc]

/-- One loop iteration on a network error with the budget exhausted
fails with the network error. -/
lemma loop_net_fail {α : Type} {jparse : Bytes → Option α}
    {server : Nat → AttemptOutcome α} {a : Nat} {f rc : Nat} {sl : List Nat}
    (h : server a = AttemptOutcome.netErr) (hrc : ¬ rc < MAX_RETRIES) :
    zhi_pu_loop jparse server (f + 1) a rc sl =
      ⟨a + 1, sl, RunOutcome.netFail⟩ := by
  simp [zhi_pu_loop, h, hrc]

/-- One loop iteration on an HTTP response whose handling asks for a
retry sleeps and retries. -/
lemma loop_step_retry {α : Type} {jparse : Bytes → Option α}
    {server : Nat → AttemptOutcome α} {a : Nat} {s : Nat}
    {p : Option ZhiPuResponse} {b : Bytes} {f rc : Nat} {sl : List Nat}
    (h : server a = AttemptOutcome.resp s p b)
    (hh : handle_http_response jparse s p b rc MAX_RETRIES = HandleOut.retry) :
    zhi_pu_loop jparse server (f + 1) a rc sl =
      zhi_pu_loop jparse server f (a + 1) (rc + 1)
        (sl ++ [wait_sleep_secs (rc + 1)]) := by
  simp [zhi_pu_loop, h, hh]

/-- One loop iteration on an HTTP response whose handling fails with a
formatted api error terminates with that error. -/
lemma loop_step_api_err {α : Type} {jparse : Bytes → Option α}
    {server : Nat → AttemptOutcome α} {a : Nat} {s : Nat}
    {p : Option ZhiPuResponse} {b : Bytes} {f rc : Nat} {sl : List Nat}
    {m : ErrorMsg α}
    (h : server a = AttemptOutcome.resp s p b)
    (hh : handle_http_response jparse s p b rc MAX_RETRIES = HandleOut.apiErr m) :
    zhi_pu_loop jparse server (f + 1) a rc sl =
      ⟨a + 1, sl, RunOutcome.apiFail m⟩ := by
  simp [zhi_pu_loop, h, hh]

/-- One loop iteration on an HTTP response whose handling reports a
decode failure terminates with the decode failure. -/
lemma loop_step_decode_err {α : Type} {jparse : Bytes → Option α}
    {server : Nat → AttemptOutcome α} {a : Nat} {s : Nat}
    {p : Option ZhiPuResponse} {b : Bytes} {f rc : Nat} {sl : List Nat}
    (h : server a = AttemptOutcome.resp s p b)
    (hh : handle_http_response jparse s p b rc MAX_RETRIES = HandleOut.decodeErr) :
    zhi_pu_loop jparse server (f + 1) a rc sl =
      ⟨a + 1, sl, RunOutcome.decodeFail⟩ := by
  simp [zhi_pu_loop, h, hh]

/-- C1: against a server whose every attempt gets a retryable status
(500, 502, 503 or 504) with an error body that formats without
panicking, zhi_pu_completion issues exactly 4 HTTP requests (sleeping
1s, 2s, 4s in between) and returns the formatted error; against a server
whose every attempt fails at the transport level, it likewise issues
exactly 4 requests and returns the network error. -/
theorem zhi_pu_four_attempts {α : Type} (jparse : Bytes → Option α)
    (server : Nat → AttemptOutcome α) :
    ((∀ n, ∃ s p b m, server n = AttemptOutcome.resp s p b ∧
        is_retryable_error s = true ∧
        format_error_response jparse s b = some m) →
      ∃ m, zhi_pu_completion jparse server =
        ⟨4, [1, 2, 4], RunOutcome.apiFail m⟩) ∧
    ((∀ n, server n = AttemptOutcome.netErr) →
      zhi_pu_completion jparse server =
        ⟨4, [1, 2, 4], RunOutcome.netFail⟩) := by
  constructor
  · intro h
    obtain ⟨s0, p0, b0, m0, e0, r0, f0⟩ := h 0
    obtain ⟨s1, p1, b1, m1, e1, r1, f1⟩ := h 1
    obtain ⟨s2, p2, b2, m2, e2, r2, f2⟩ := h 2
    obtain ⟨s3, p3, b3, m3, e3, r3, f3⟩ := h 3
    have hh0 := handle_retryable jparse p0 b0 r0 (show 0 < MAX_RETRIES by decide)
    have hh1 := handle_retryable jparse p1 b1 r1 (show 1 < MAX_RETRIES by decide)
    have hh2 := handle_retryable jparse p2 b2 r2 (show 2 < MAX_RETRIES by decide)
    have hh3 : handle_http_response jparse s3 p3 b3 3 MAX_RETRIES =
        HandleOut.apiErr m3 :=
      handle_fatal_format p3 (retryable_not_success r3)
        (by simp [MAX_RETRIES]) f3
    refine ⟨m3, ?_⟩
    calc zhi_pu_completion jparse server
        = zhi_pu_loop jparse server (MAX_RETRIES + 1) 0 0 [] := rfl
      _ = zhi_pu_loop jparse server MAX_RETRIES 1 1 [1] :=
          loop_step_retry e0 hh0
      _ = zhi_pu_loop jparse server 2 2 2 [1, 2] :=
          loop_step_retry e1 hh1
      _ = zhi_pu_loop jparse server 1 3 3 [1, 2, 4] :=
          loop_step_retry e2 hh2
      _ = ⟨4, [1, 2, 4], RunOutcome.apiFail m3⟩ :=
          loop_step_api_err e3 hh3
  · intro h
    calc zhi_pu_completion jparse server
        = zhi_pu_loop jparse server (MAX_RETRIES + 1) 0 0 [] := rfl
      _ = zhi_pu_loop jparse server MAX_RETRIES 1 1 [1] :=
          loop_step_net (h 0) (by decide)
      _ = zhi_pu_loop jparse server 2 2 2 [1, 2] :=
          loop_step_net (h 1) (by decide)
      _ = zhi_pu_loop jparse server 1 3 3 [1, 2, 4] :=
          loop_step_net (h 2) (by decide)
      _ = ⟨4, [1, 2, 4], RunOutcome.netFail⟩ :=
          loop_net_fail (h 3) (by decide)

/-- Witness for zhi_pu_four_attempts: a server always answering 500
with an empty body, and a server always failing at the transport level,
both at a parser that never accepts. -/
theorem zhi_pu_four_attempts_witness :
    (∃ m, zhi_pu_completion (fun _ => (none : Option Unit))
        (fun _ => AttemptOutcome.resp 500 none []) =
      ⟨4, [1, 2, 4], RunOutcome.apiFail m⟩) ∧
    zhi_pu_completion (fun _ => (none : Option Unit))
        (fun _ => AttemptOutcome.netErr) =
      ⟨4, [1, 2, 4], RunOutcome.netFail⟩ :=
  ⟨(zhi_pu_four_attempts _ _).1
      (fun _ => ⟨500, none, [], ErrorMsg.textError 500 [], rfl, rfl, rfl⟩),
    (zhi_pu_four_attempts _ _).2 (fun _ => rfl)⟩

/-- Loop invariant for the backoff sequence: started with the sleeps of
the first `c` retries already recorded, the loop only ever extends that
record to the sleeps of the first `k` retries for some k ≤ MAX_RETRIES,
the n-th recorded sleep being wait_sleep_secs n. -/
lemma zhi_pu_loop_sleeps_spec {α : Type} (jparse : Bytes → Option α)
    (server : Nat → AttemptOutcome α) :
    ∀ f a c : Nat, c ≤ MAX_RETRIES →
      ∃ k, k ≤ MAX_RETRIES ∧
        (zhi_pu_loop jparse server f a c
            ((List.range c).map fun i => wait_sleep_secs (i + 1))).sleeps =
          (List.range k).map fun i => wait_sleep_secs (i + 1) := by
  intro f
  induction f with
  | zero => exact fun a c hc => ⟨c, hc, rfl⟩
  | succ f ih =>
    intro a c hc
    have hacc : ((List.range c).map fun i => wait_sleep_secs (i + 1)) ++
        [wait_sleep_secs (c + 1)] =
        (List.range (c + 1)).map fun i => wait_sleep_secs (i + 1) := by
      simp [List.range_succ]
    rcases hsrv : server a with _ | ⟨s, p, b⟩
    · by_cases hrc : c < MAX_RETRIES
      · rw [loop_step_net hsrv hrc, hacc]
        exact ih (a + 1) (c + 1) hrc
      · rw [loop_net_fail hsrv hrc]
        exact ⟨c, hc, rfl⟩
    · rcases hh : handle_http_response jparse s p b c MAX_RETRIES with
        r | _ | _ | m | _
      · simp only [zhi_pu_loop, hsrv, hh]
        exact ⟨c, hc, rfl⟩
      · rw [loop_step_retry hsrv hh, hacc]
        exact ih (a + 1) (c + 1) (handle_retry_lt hh)
      · rw [loop_step_decode_err hsrv hh]
        exact ⟨c, hc, rfl⟩
      · rw [loop_step_api_err hsrv hh]
        exact ⟨c, hc, rfl⟩
      · simp only [zhi_pu_loop, hsrv, hh]
        exact ⟨c, hc, rfl⟩

/-- C2: on every run of zhi_pu_completion, whatever the server does, the
recorded sleep durations are exactly 2^0, 2^1, ..., 2^(k-1) seconds for
the k ≤ 3 retries performed: the sleep before the n-th retry (1-indexed)
is 2^(n-1) seconds, on the network-error path and the retryable-status
path alike. -/
theorem zhi_pu_backoff_powers {α : Type} (jparse : Bytes → Option α)
    (server : Nat → AttemptOutcome α) :
    ∃ k, k ≤ 3 ∧ (zhi_pu_completion jparse server).sleeps =
      (List.range k).map fun i => 2 ^ i := by
  obtain ⟨k, hk, hs⟩ :=
    zhi_pu_loop_sleeps_spec jparse server (MAX_RETRIES + 1) 0 0 (by decide)
  refine ⟨k, hk, ?_⟩
  have heq : zhi_pu_completion jparse server =
      zhi_pu_loop jparse server (MAX_RETRIES + 1) 0 0
        ((List.range 0).map fun i => wait_sleep_secs (i + 1)) := rfl
  rw [heq, hs]
  simp [wait_sleep_secs]

/-- C3: a first response with a fatal non-2xx status (not retryable)
whose body formats without panicking makes zhi_pu_completion fail after
exactly one HTTP request, with no sleep. -/
theorem zhi_pu_fatal_status_one_attempt {α : Type} (jparse : Bytes → Option α)
    (server : Nat → AttemptOutcome α) (s : Nat) (p : Option ZhiPuResponse)
    (b : Bytes) (m : ErrorMsg α)
    (hs : ¬ (200 ≤ s ∧ s ≤ 299)) (hr : is_retryable_error s = false)
    (hsrv : server 0 = AttemptOutcome.resp s p b)
    (hf : format_error_response jparse s b = some m) :
    zhi_pu_completion jparse server = ⟨1, [], RunOutcome.apiFail m⟩ :=
  calc zhi_pu_completion jparse server
      = zhi_pu_loop jparse server (MAX_RETRIES + 1) 0 0 [] := rfl
    _ = ⟨1, [], RunOutcome.apiFail m⟩ :=
        loop_step_api_err hsrv (handle_fatal_format p hs (by simp [hr]) hf)

/-- Witness for zhi_pu_fatal_status_one_attempt: a 404 with an empty
non-JSON body fails after one request with the raw body in the error. -/
theorem zhi_pu_fatal_status_one_attempt_witness :
    zhi_pu_completion (fun _ => (none : Option Unit))
        (fun _ => AttemptOutcome.resp 404 none []) =
      ⟨1, [], RunOutcome.apiFail (ErrorMsg.textError 404 [])⟩ :=
  zhi_pu_fatal_status_one_attempt _ _ 404 none [] _ (by decide) (by decide)
    rfl rfl

/-- C4: a first response with a 2xx status whose body does not parse as
ZhiPuResponse makes zhi_pu_completion fail with the decode error after
exactly one HTTP request, with no sleep and no retry. -/
theorem zhi_pu_decode_failure_fatal {α : Type} (jparse : Bytes → Option α)
    (server : Nat → AttemptOutcome α) (s : Nat) (b : Bytes)
    (hs : 200 ≤ s ∧ s ≤ 299)
    (hsrv : server 0 = AttemptOutcome.resp s none b) :
    zhi_pu_completion jparse server = ⟨1, [], RunOutcome.decodeFail⟩ :=
  calc zhi_pu_completion jparse server
      = zhi_pu_loop jparse server (MAX_RETRIES + 1) 0 0 [] := rfl
    _ = ⟨1, [], RunOutcome.decodeFail⟩ :=
        loop_step_decode_err hsrv (handle_decode_err jparse b 0 MAX_RETRIES hs)

/-- Witness for zhi_pu_decode_failure_fatal: a 200 whose body fails the
typed parse is a one-request decode failure. -/
theorem zhi_pu_decode_failure_fatal_witness :
    zhi_pu_completion (fun _ => (none : Option Unit))
        (fun _ => AttemptOutcome.resp 200 none [123]) =
      ⟨1, [], RunOutcome.decodeFail⟩ :=
  zhi_pu_decode_failure_fatal _ _ 200 [123] (by decide) rfl

set_option maxRecDepth 8000 in
/-- C5, counterexample: a non-JSON error body of 101 characters (202
bytes) is not longer than 200 characters, yet format_error_response does
not return it unmodified — the truncation threshold counts bytes, not
characters. -/
theorem format_error_char_truncation_cex :
    utf8CharCount twoByteRunBody ≤ 200 ∧
    format_error_response (fun _ => (none : Option Unit)) 400 twoByteRunBody ≠
      some (ErrorMsg.textError 400 twoByteRunBody) := by
  constructor
  · decide
  · decide

/-- C5, amended: for a fatal response body, if it parses as JSON the
message embeds that JSON; otherwise the message embeds the raw body
unmodified when its byte length is at most 200, and the first 200 bytes
followed by "..." when the byte length exceeds 200 and byte offset 200
is a character boundary (when it is not, the slice panics and no message
is produced). -/
theorem format_error_response_spec {α : Type} (jparse : Bytes → Option α)
    (status : Nat) (body : Bytes) :
    (∀ j, jparse body = some j →
      format_error_response jparse status body =
        some (ErrorMsg.jsonError j)) ∧
    (jparse body = none →
      format_error_response jparse status body =
        if body.length ≤ 200 then some (ErrorMsg.textError status body)
        else if is_char_boundary body 200 then
          some (ErrorMsg.textError status (body.take 200 ++ ellipsis))
        else none) := by
  constructor
  · intro j hj
    simp [format_error_response, hj]
  · intro hj
    simp only [format_error_response, hj]
    by_cases hl : 200 < body.length
    · rw [if_pos hl, if_neg (show ¬ body.length ≤ 200 by omega)]
    · rw [if_neg hl, if_pos (show body.length ≤ 200 by omega)]

/-- Witness for format_error_response_spec: a body accepted by the JSON
parse surfaces as structured JSON, and a short non-JSON body surfaces
unmodified. -/
theorem format_error_response_spec_witness :
    format_error_response (fun _ => some 7) 400 [97] =
      some (ErrorMsg.jsonError 7) ∧
    format_error_response (fun _ => (none : Option Nat)) 400 [97] =
      some (ErrorMsg.textError 400 [97]) :=
  ⟨(format_error_response_spec (fun _ => some 7) 400 [97]).1 7 rfl,
    by simpa using
      (format_error_response_spec (fun _ => (none : Option Nat)) 400 [97]).2 rfl⟩

set_option maxRecDepth 8000 in
/-- C10: format_error_response on the 201-byte body splitCharBody, whose
byte offset 200 falls inside a two-byte character, reaches the panicking
byte slice: the Rust code panics there instead of returning a message,
modelled as none. -/
theorem format_error_response_panics_mid_char :
    format_error_response (fun _ => (none : Option Unit)) 400 splitCharBody =
      none := by
  decide

end ZhiPu

namespace AnkiConnect

/-- C6: an envelope built with params = None serializes, for every
action and version and params serializer, to an object with exactly the
action and version keys — the params key is omitted entirely — and that
wire form re-parses to the same logical request; in particular the
envelope get_deck_names builds for cards = None carries no params key. -/
theorem anki_request_no_params_round_trip {T : Type} (serP : T → Json)
    (deP : Json → Option T) (a : String) (v : Nat) :
    jsonKeys (serializeAnkiRequest serP (AnkiRequest.new a v none)) =
      ["action", "version"] ∧
    parseAnkiRequest deP (serializeAnkiRequest serP (AnkiRequest.new a v none)) =
      some (AnkiRequest.new a v none) ∧
    serializeAnkiRequest serGetDeckNamesParams
        (AnkiRequest.new "getDeckNames" 6 (get_deck_names_params none)) =
      Json.obj [("action", Json.str "getDeckNames"), ("version", Json.num 6)] := by
  refine ⟨rfl, ?_, rfl⟩
  simp [serializeAnkiRequest, parseAnkiRequest, AnkiRequest.new, List.lookup]

/-- C7: an error envelope surfaces through invoke as the remote error
message built from error and detail, joined as "error: detail" when the
detail is present and just "error" when it is absent; a success envelope
such as a numeric result 12345 decodes to that typed result, which
invoke returns unchanged. -/
theorem invoke_error_formatting {R : Type} (e d : String) (r : R) :
    invoke_unwrap (AnkiResponse.error e (some d) : AnkiResponse R) =
      Except.error ("Anki-Connect error: " ++ (e ++ ": " ++ d)) ∧
    invoke_unwrap (AnkiResponse.error e none : AnkiResponse R) =
      Except.error ("Anki-Connect error: " ++ e) ∧
    parseAnkiResponse parseIntResult (Json.obj [("result", Json.num 12345)]) =
      some (AnkiResponse.success (12345 : Int)) ∧
    invoke_unwrap (AnkiResponse.success r) = Except.ok r :=
  ⟨rfl, rfl, rfl, rfl⟩

/-- C8: update_note_fields succeeds exactly when the RPC layer returned
Ok true, and an RPC result of Ok false surfaces as a caller-visible
error rather than a silent success. -/
theorem update_note_fields_false_is_error (rpc : Except String Bool) :
    (update_note_fields rpc = Except.ok () ↔ rpc = Except.ok true) ∧
    (rpc = Except.ok false →
      update_note_fields rpc = Except.error "Failed to update note fields") := by
  rcases rpc with e | b
  · exact ⟨by simp [update_note_fields], by simp⟩
  · cases b <;> simp [update_note_fields]

/-- Witness for update_note_fields_false_is_error at both booleans. -/
theorem update_note_fields_false_is_error_witness :
    update_note_fields (Except.ok false) =
      Except.error "Failed to update note fields" ∧
    update_note_fields (Except.ok true) = Except.ok () :=
  ⟨(update_note_fields_false_is_error (Except.ok false)).2 rfl,
    (update_note_fields_false_is_error (Except.ok true)).1.mpr rfl⟩

/-- C9: parsing the untagged envelope tries the success shape first: any
object with a "result" key whose value the result parser accepts decodes
as a success, whatever other keys (an "error" key included) it carries;
the error shape is consulted only when the success shape does not match. -/
theorem anki_response_success_precedence {R : Type} (deR : Json → Option R)
    (kvs : List (String × Json)) (v : Json) (r : R)
    (hres : kvs.lookup "result" = some v) (hr : deR v = some r) :
    parseAnkiResponse deR (Json.obj kvs) = some (AnkiResponse.success r) ∧
    ∀ kvs2 : List (String × Json), parseSuccess deR kvs2 = none →
      parseAnkiResponse deR (Json.obj kvs2) = parseError kvs2 := by
  constructor
  · simp [parseAnkiResponse, parseSuccess, hres, hr, Option.orElse]
  · intro kvs2 h2
    simp [parseAnkiResponse, h2, Option.orElse]

/-- Witness for anki_response_success_precedence: a body carrying both a
"result" and an "error" key decodes as the success. -/
theorem anki_response_success_precedence_witness :
    parseAnkiResponse parseIntResult
        (Json.obj [("result", Json.num 5), ("error", Json.str "x")]) =
      some (AnkiResponse.success (5 : Int)) :=
  (anki_response_success_precedence parseIntResult
    [("result", Json.num 5), ("error", Json.str "x")] (Json.num 5) 5
    rfl rfl).1

end AnkiConnect

namespace ZhiPu

set_option maxRecDepth 8000 in
/-- C1, counterexample: a server answering every attempt with status 500
and a 201-byte non-JSON body whose byte offset 200 splits a character
makes zhi_pu_completion issue its 4 requests and then panic in the error
formatting instead of returning an error. -/
theorem zhi_pu_four_attempts_cex :
    zhi_pu_completion (fun _ => (none : Option Unit))
        (fun _ => AttemptOutcome.resp 500 none splitCharBody) =
      ⟨4, [1, 2, 4], RunOutcome.panicked⟩ := by
  decide

set_option maxRecDepth 8000 in
/-- C3, counterexample: a single 400 response with the same
character-splitting body makes zhi_pu_completion issue exactly 1 request
and perform no sleep, but panic in the error formatting instead of
returning an error. -/
theorem zhi_pu_fatal_status_cex :
    zhi_pu_completion (fun _ => (none : Option Unit))
        (fun _ => AttemptOutcome.resp 400 none splitCharBody) =
      ⟨1, [], RunOutcome.panicked⟩ := by
  decide

end ZhiPu
